import Mathlib

/-!
Verification of the swap quote sessions of `src/state/swap.tsx`
(`useSwap`, `useStableSwap`) of the ref-ui repository.

The embedding models amounts the way the source does — as decimal strings
(`''` is the JS-falsy empty amount, `'0'` is an explicit zero quote) — and
models one estimation cycle of each hook as a pure function from the
pre-state, the hook inputs and the outcome of the (external) estimator
promise to the post-state.  The asynchronous `then/catch/finally` chain is
sequentialised: within one cycle the closure variables (`tokenInAmount`,
`loadingTrigger`, …) are the values captured when `getEstimate` ran, which
is exactly how the source's closures behave.  The `.catch` handlers make the
embedded cycle a total function: no failure escapes to the caller.
-/

namespace RefUi

/-- Numeric value of a decimal digit character. -/
def digitVal (c : Char) : Nat := c.toNat - 48

/-- Accumulate a digit list into a natural number (most significant first). -/
def natOfDigits (l : List Char) : Nat := l.foldl (fun a c => a * 10 + digitVal c) 0

/-- Value of a decimal string `intPart.fracPart` as a rational.
Used to give meaning to the amount strings the hooks manipulate. -/
def parseDecimal (l : List Char) : ℚ :=
  let intPart := l.takeWhile (fun c => c ≠ '.')
  let frac := (l.dropWhile (fun c => c ≠ '.')).drop 1
  (natOfDigits intPart : ℚ) + (natOfDigits frac : ℚ) / (10 ^ frac.length)

/-- Numeric value of an amount string. -/
def strToRat (s : String) : ℚ := parseDecimal s.data

/-- Strip one leading decimal point, if present (helper for `isOnlyZeros`). -/
def dropDot : List Char → List Char
  | '.' :: rest => rest
  | l => l

/-- The regex `ONLY_ZEROS = /^0*\.?0*$/` of `swap.tsx` line 44:
leading zeros, an optional decimal point, trailing zeros.  It matches `''`,
`'0'`, `'000'`, `'0.0'`, `'.'`; it rejects any string holding a character
other than `0` and one optional point. -/
def isOnlyZeros (s : String) : Bool :=
  (dropDot (s.data.dropWhile (fun c => c = '0'))).all (fun c => c = '0')

/-- Modelled from the spec: `percentLess` of `utils/numbers` (imported by
`swap.tsx` but not under `src/`) — the glossary defines slippage tolerance
as the "maximum fractional reduction from the estimated output", so
`percentLess(p, num)` is `num` reduced by `p` percent: `(100 - p) / 100 * num`. -/
def percentLess (percent : ℚ) (num : ℚ) : ℚ := (100 - percent) / 100 * num

/-- `swap.tsx` lines 84–86 (`useSwap`) and 251–253 (`useStableSwap`), which
are textually identical:
`minAmountOut = tokenOutAmount ? percentLess(slippageTolerance, tokenOutAmount) : null`.
The empty string is the only falsy amount string, so `null` (here `none`)
is produced exactly for `tokenOutAmount = ''`. -/
def minAmountOut (tokenOutAmount : String) (slippageTolerance : ℚ) : Option ℚ :=
  if tokenOutAmount = "" then none
  else some (percentLess slippageTolerance (strToRat tokenOutAmount))

/-- `TokenMetadata` restricted to the field the hooks read. -/
structure Token where
  id : String
  deriving DecidableEq, Repr

/-- A pool snapshot restricted to the fields the hooks read. -/
structure Pool where
  id : Nat
  fee : ℚ
  deriving DecidableEq, Repr

/-- `PoolMode` of `services/swap`: the route-leg mode tag. -/
inductive PoolMode
  | PARALLEL
  | STABLE
  | SMART
  deriving DecidableEq, Repr

/-- One discovered route as consumed by `getAverageFeeForRoutes`: its
allocated input amount and its aggregate fee. -/
structure RouteInfo where
  inputAmount : ℚ
  routeFee : ℚ
  deriving DecidableEq, Repr

/-- `EstimateSwapView`: one route leg, restricted to the fields
`setAverageFee`, `getEstimate` and the derived flags read. -/
structure EstimateSwapView where
  status : PoolMode
  pool : Pool
  outputToken : String
  estimate : ℚ
  allRoutes : List RouteInfo
  allNodeRoutes : List RouteInfo
  totalInputAmount : ℚ
  deriving DecidableEq, Repr

/-- Modelled from the spec: `getAverageFeeForRoutes` of
`services/smartRouteLogic` (imported by `swap.tsx` but not under `src/`) —
"average fee is amount-weighted across all discovered routes and
node-routes". -/
def getAverageFeeForRoutes (allRoutes : List RouteInfo) (allNodeRoutes : List RouteInfo)
    (totalInputAmount : ℚ) : ℚ :=
  (((allRoutes ++ allNodeRoutes).map (fun r => r.routeFee * r.inputAmount)).sum) / totalInputAmount

/-- Modelled from the spec: `getExpectedOutputFromActions` of
`services/smartRouteLogic` (not under `src/`) — the total expected output of
the route legs toward the output token. -/
def getExpectedOutputFromActions (estimates : List EstimateSwapView) (outputTokenId : String) : ℚ :=
  ((estimates.filter (fun e => e.outputToken = outputTokenId)).map (fun e => e.estimate)).sum

/-- The `.toString()` applied to the expected output before it is stored in
`tokenOutAmount` (`swap.tsx` lines 160–162). -/
def expectedOutputString (estimates : List EstimateSwapView) (outputTokenId : String) : String :=
  toString (getExpectedOutputFromActions estimates outputTokenId)

/-- `setAverageFee` of `swap.tsx` lines 91–109.  `estimates[0]` on an empty
array is a JS `TypeError` (`undefined.status`), modelled as `none`; the
source's `estimates.reduce((pre, cur) => pre + cur.pool.fee, 0)` is the sum
of the per-leg pool fees. -/
def setAverageFee : List EstimateSwapView → Option ℚ
  | [] => none
  | e :: rest =>
    if e.status = PoolMode.SMART ∨ e.status = PoolMode.STABLE then
      some (((e :: rest).map (fun c => c.pool.fee)).sum)
    else
      some (getAverageFeeForRoutes e.allRoutes e.allNodeRoutes e.totalInputAmount)

/-- The `SwapOptions` fields a single estimation cycle reads.  `tokenIn` and
`tokenOut` may be JS-`undefined`, hence `Option`. -/
structure SwapOptions where
  tokenIn : Option Token
  tokenOut : Option Token
  tokenInAmount : String
  slippageTolerance : ℚ
  loadingTrigger : Bool
  loadingPause : Bool
  deriving Repr

/-- The `useState` cells of `useSwap` that `getEstimate` writes.  The
`useState<boolean>()` initial `undefined` of `canSwap` is modelled as
`false` (every cycle overwrites it first thing); `swapError`'s `undefined`
and `null` are both `none`. -/
structure UseSwapState where
  pool : Option Pool
  canSwap : Bool
  tokenOutAmount : String
  swapError : Option String
  swapsToDo : Option (List EstimateSwapView)
  avgFee : ℚ
  deriving Repr

/-- Outcome of one `useSwap.getEstimate` cycle: the post-state, whether
`estimateSwap` was invoked, and the `loadingTrigger` value after the cycle
(the `.finally(() => setLoadingTrigger(false))` effect). -/
structure UseSwapCycleResult where
  state : UseSwapState
  estimatorCalled : Bool
  loadingTriggerAfter : Bool
  deriving Repr

/-- One cycle of `useSwap.getEstimate` (`swap.tsx` lines 134–185).
`estRes` is the outcome of the external `estimateSwap` promise:
`Except.error` a rejection, `Except.ok none` a resolution with a falsy
`estimates` value (then `throw ''` at line 153 reaches the `.catch`), and
`Except.ok (some l)` a resolution with an array `l`.  A resolved empty
array passes `if (!estimates)` (an empty JS array is truthy) but then
`estimates[0].status` inside `setAverageFee` raises a `TypeError` that the
`.catch` converts to the error path.  The source's trailing `else if`
(lines 176–184) requires `tokenIn.id !== tokenOut.id` and is only reached
when the line-137 guard failed, so it is unreachable and sets nothing. -/
def useSwapGetEstimate (o : SwapOptions) (st : UseSwapState)
    (estRes : Except String (Option (List EstimateSwapView))) : UseSwapCycleResult :=
  let st0 := { st with canSwap := false }
  match o.tokenIn, o.tokenOut with
  | some tin, some tout =>
    if tin.id ≠ tout.id then
      let st1 := { st0 with swapError := none }
      if o.tokenInAmount = "" ∨ isOnlyZeros o.tokenInAmount then
        { state := { st1 with tokenOutAmount := "0" },
          estimatorCalled := false, loadingTriggerAfter := o.loadingTrigger }
      else
        match estRes with
        | Except.ok estimatesOpt =>
          match estimatesOpt with
          | some estimates =>
            match estimates with
            | e :: rest =>
              let st2 :=
                if o.tokenInAmount ≠ "" ∧ isOnlyZeros o.tokenInAmount = false then
                  let stA := { st1 with canSwap := true,
                                        avgFee := (setAverageFee (e :: rest)).getD st1.avgFee }
                  if o.loadingTrigger then stA
                  else { stA with tokenOutAmount := expectedOutputString (e :: rest) tout.id,
                                  swapsToDo := some (e :: rest) }
                else st1
              { state := { st2 with pool := some e.pool },
                estimatorCalled := true, loadingTriggerAfter := false }
            | [] =>
              { state := { st1 with canSwap := false, tokenOutAmount := "",
                                    swapError := some "TypeError" },
                estimatorCalled := true, loadingTriggerAfter := false }
          | none =>
            { state := { st1 with canSwap := false, tokenOutAmount := "",
                                  swapError := some "" },
              estimatorCalled := true, loadingTriggerAfter := false }
        | Except.error err =>
          { state := { st1 with canSwap := false, tokenOutAmount := "",
                                swapError := some err },
            estimatorCalled := true, loadingTriggerAfter := false }
    else
      { state := st0, estimatorCalled := false, loadingTriggerAfter := o.loadingTrigger }
  | _, _ =>
    { state := st0, estimatorCalled := false, loadingTriggerAfter := o.loadingTrigger }

/-- The `useState` cells of `useStableSwap` that `getEstimate` writes. -/
structure StableSwapState where
  pool : Option Pool
  canSwap : Bool
  tokenOutAmount : String
  swapError : Option String
  noFeeAmount : String
  deriving Repr

/-- The resolution value of the external `estimateStableSwap` promise:
`{estimate, pool, dy}`.  A falsy `estimate` is the empty string; a falsy
`pool` is `none`. -/
structure StableEstimateOut where
  estimate : String
  pool : Option Pool
  dy : String
  deriving Repr

/-- Outcome of one `useStableSwap.getEstimate` cycle. -/
structure StableCycleResult where
  state : StableSwapState
  estimatorCalled : Bool
  loadingTriggerAfter : Bool
  deriving Repr

/-- One cycle of `useStableSwap.getEstimate` (`swap.tsx` lines 257–298).
Unlike `useSwap`, there is no zero-amount short-circuit: whenever the two
tokens are present and distinct, `estimateStableSwap` is invoked, zero
amount or not; with a zero amount the `.then` handler's guard at line 274
fails and nothing beyond `canSwap`/`swapError` is written.  The trailing
`else if` (lines 289–297) is unreachable for the same contradiction as in
`useSwap`.  `loadingTriggerAfter` is modelled from the spec:
`useStableSwap` has no `.finally` of its own and instead hands
`setLoadingTrigger` to `estimateStableSwap` (`services/stable-swap`, not
under `src/`), which per the spec always clears the flag on completion. -/
def useStableSwapGetEstimate (o : SwapOptions) (st : StableSwapState)
    (estRes : Except String StableEstimateOut) : StableCycleResult :=
  let st0 := { st with canSwap := false }
  match o.tokenIn, o.tokenOut with
  | some tin, some tout =>
    if tin.id ≠ tout.id then
      let st1 := { st0 with swapError := none }
      match estRes with
      | Except.ok out =>
        if out.estimate = "" ∨ out.pool = none then
          { state := { st1 with canSwap := false, tokenOutAmount := "",
                                noFeeAmount := "", swapError := some "" },
            estimatorCalled := true, loadingTriggerAfter := false }
        else
          let st2 :=
            if o.tokenInAmount ≠ "" ∧ isOnlyZeros o.tokenInAmount = false then
              let stA := { st1 with canSwap := true }
              let stB :=
                if o.loadingTrigger then stA
                else { stA with noFeeAmount := out.dy, tokenOutAmount := out.estimate }
              { stB with pool := out.pool }
            else st1
          { state := st2, estimatorCalled := true, loadingTriggerAfter := false }
      | Except.error err =>
        { state := { st1 with canSwap := false, tokenOutAmount := "",
                              noFeeAmount := "", swapError := some err },
          estimatorCalled := true, loadingTriggerAfter := false }
    else
      { state := st0, estimatorCalled := false, loadingTriggerAfter := o.loadingTrigger }
  | _, _ =>
    { state := st0, estimatorCalled := false, loadingTriggerAfter := o.loadingTrigger }

/-- One transaction action, restricted to the optional
`FunctionCall.method_name` the resolver reads (`none` when the action is
not a function call or the entry is absent). -/
structure Action where
  methodName : Option String
  deriving DecidableEq, Repr

/-- A fetched transaction: its ordered action list. -/
structure Transaction where
  actions : List Action
  deriving DecidableEq, Repr

/-- `transaction?.actions[i]?.['FunctionCall']?.method_name`. -/
def actionMethod (t : Transaction) (i : Nat) : Option String :=
  (t.actions.get? i).bind (fun a => a.methodName)

/-- The classification of `swap.tsx` lines 114–124 (identical at lines
303–312): the second action entry is compared against `ft_transfer_call`
only; the first entry against `ft_transfer_call`, `swap` and
`near_withdraw`. -/
def isSwapTransaction (t : Transaction) : Bool :=
  decide (actionMethod t 1 = some "ft_transfer_call")
  || decide (actionMethod t 0 = some "ft_transfer_call")
  || decide (actionMethod t 0 = some "swap")
  || decide (actionMethod t 0 = some "near_withdraw")

/-- The classifier as the claim states it: some method name of the set
appears among the first two action entries.  Written from the claim's
words, to be compared with `isSwapTransaction`, the classifier of the
source. -/
def claimClassifiedAsSwap (t : Transaction) : Prop :=
  ∃ m, m ∈ ["ft_transfer_call", "swap", "near_withdraw"] ∧
    (actionMethod t 0 = some m ∨ actionMethod t 1 = some m)

/-- `getURLInfo()`: the navigation context the resolver reads.  A falsy
`errorType` is `none`. -/
structure UrlInfo where
  txHash : Option String
  pathname : String
  errorType : Option String
  deriving DecidableEq, Repr

/-- Observable outcome of the `txHash` effect: whether `swapToast` ran and,
when `history.replace` ran, the path it replaced to. -/
structure TxEffectResult where
  toastEmitted : Bool
  historyReplacedTo : Option String
  deriving DecidableEq, Repr

/-- The `useEffect([txHash])` body of `swap.tsx` lines 111–132 (identical at
lines 300–321).  `fetched` is the transaction the external
`checkTransaction` resolves to for a hash.  With a truthy `txHash`, the
transaction is classified, `swapToast` runs exactly when the classification
succeeds and `errorType` is falsy, and `history.replace(pathname)` runs
unconditionally afterwards, which strips the hash from the navigation
context. -/
def txHashEffect (info : UrlInfo) (fetched : String → Transaction) : TxEffectResult :=
  match info.txHash with
  | none => { toastEmitted := false, historyReplacedTo := none }
  | some h =>
    { toastEmitted := isSwapTransaction (fetched h) && info.errorType.isNone,
      historyReplacedTo := some info.pathname }

/-- Sample token (used to instantiate universally quantified theorems). -/
def tokenA : Token := { id := "wrap.near" }

/-- A second sample token, distinct from `tokenA`. -/
def tokenB : Token := { id := "token.v2.ref-finance.near" }

/-- Sample pool with a 0.3 % fee. -/
def samplePool : Pool := { id := 0, fee := 3 / 1000 }

/-- Sample `STABLE`-tagged route leg. -/
def sampleStableLeg : EstimateSwapView :=
  { status := PoolMode.STABLE, pool := samplePool, outputToken := "token.v2.ref-finance.near",
    estimate := 5, allRoutes := [], allNodeRoutes := [], totalInputAmount := 10 }

/-- Sample `PARALLEL`-tagged route leg. -/
def sampleParallelLeg : EstimateSwapView :=
  { status := PoolMode.PARALLEL, pool := samplePool, outputToken := "token.v2.ref-finance.near",
    estimate := 5, allRoutes := [{ inputAmount := 10, routeFee := 3 / 1000 }],
    allNodeRoutes := [], totalInputAmount := 10 }

/-- Sample cycle inputs: distinct tokens, a non-zero amount, user-triggered. -/
def sampleOpts : SwapOptions :=
  { tokenIn := some tokenA, tokenOut := some tokenB, tokenInAmount := "10",
    slippageTolerance := 1, loadingTrigger := false, loadingPause := false }

/-- Sample cycle inputs: distinct tokens, a non-zero amount, timer-triggered. -/
def sampleOptsTrigger : SwapOptions :=
  { sampleOpts with loadingTrigger := true }

/-- Sample cycle inputs: distinct tokens, the all-zero amount `'0'`. -/
def sampleOptsZero : SwapOptions :=
  { sampleOpts with tokenInAmount := "0" }

/-- Sample cycle inputs: the same token on both sides. -/
def sampleOptsSame : SwapOptions :=
  { sampleOpts with tokenOut := some tokenA }

/-- The initial `useState` values of `useSwap`. -/
def initialSwapState : UseSwapState :=
  { pool := none, canSwap := false, tokenOutAmount := "", swapError := none,
    swapsToDo := none, avgFee := 0 }

/-- The initial `useState` values of `useStableSwap`. -/
def initialStableState : StableSwapState :=
  { pool := none, canSwap := false, tokenOutAmount := "", swapError := none,
    noFeeAmount := "" }

/-- A sample successful `estimateStableSwap` resolution. -/
def sampleStableOut : StableEstimateOut :=
  { estimate := "9.9", pool := some samplePool, dy := "10" }

/-- A sample `estimateStableSwap` resolution carrying no estimate (falsy
`estimate` field), which the hook's `throw ''` routes to its `.catch`. -/
def sampleStableOutFalsy : StableEstimateOut :=
  { estimate := "", pool := some samplePool, dy := "" }

theorem strToRat_nonneg (s : String) : 0 ≤ strToRat s := by
  unfold strToRat parseDecimal
  have h1 : (0 : ℚ) ≤ (natOfDigits (s.data.takeWhile (fun c => c ≠ '.')) : ℚ) := by
    exact_mod_cast Nat.zero_le _
  have h2 : (0 : ℚ) ≤ (natOfDigits ((s.data.dropWhile (fun c => c ≠ '.')).drop 1) : ℚ) /
      (10 ^ ((s.data.dropWhile (fun c => c ≠ '.')).drop 1).length) := by
    apply div_nonneg
    · exact_mod_cast Nat.zero_le _
    · positivity
  linarith

theorem percentLess_le (p x : ℚ) (hp : 0 ≤ p) (hx : 0 ≤ x) : percentLess p x ≤ x := by
  unfold percentLess
  have h : (100 - p) / 100 ≤ 1 := by linarith
  nlinarith

theorem percentLess_anti (p q x : ℚ) (hpq : p ≤ q) (hx : 0 ≤ x) :
    percentLess q x ≤ percentLess p x := by
  unfold percentLess
  have h : (100 - q) / 100 ≤ (100 - p) / 100 := by linarith
  nlinarith

theorem strToRat_zero : strToRat "0" = 0 := by
  simp +decide [strToRat, parseDecimal, natOfDigits, digitVal, List.takeWhile,
    List.dropWhile, List.foldl, Char.toNat]


/-- C1: for every non-empty `tokenOutAmount` and every nonnegative slippage
tolerance, the exposed `minAmountOut` equals
`percentLess(slippageTolerance, tokenOutAmount)`, satisfies
`minAmountOut ≤ tokenOutAmount`, and, for a fixed `tokenOutAmount`,
decreases monotonically as the slippage tolerance increases. -/
theorem minAmountOut_eq_le_antitone (s : String) (p q : ℚ)
    (hs : s ≠ "") (hp : 0 ≤ p) (hpq : p ≤ q) :
    minAmountOut s p = some (percentLess p (strToRat s)) ∧
    percentLess p (strToRat s) ≤ strToRat s ∧
    percentLess q (strToRat s) ≤ percentLess p (strToRat s) := by
  refine ⟨by simp [minAmountOut, hs], ?_, ?_⟩
  · exact percentLess_le p _ hp (strToRat_nonneg s)
  · exact percentLess_anti p q _ hpq (strToRat_nonneg s)

/-- Witness for C1 at `tokenOutAmount = '9.066'`, slippage 1 % vs 2 %. -/
theorem minAmountOut_eq_le_antitone_witness :
    minAmountOut "9.066" 1 = some (percentLess 1 (strToRat "9.066")) ∧
    percentLess 1 (strToRat "9.066") ≤ strToRat "9.066" ∧
    percentLess 2 (strToRat "9.066") ≤ percentLess 1 (strToRat "9.066") :=
  minAmountOut_eq_le_antitone "9.066" 1 2 (by decide) (by norm_num) (by norm_num)

/-- C7: `setAverageFee` on a non-empty estimate list yields the sum of the
per-leg pool fees when the result is `SMART`- or `STABLE`-tagged, and
`getAverageFeeForRoutes` over all discovered routes and node-routes when
the result is `PARALLEL`-tagged. -/
theorem setAverageFee_branches (e : EstimateSwapView) (rest : List EstimateSwapView) :
    ((e.status = PoolMode.SMART ∨ e.status = PoolMode.STABLE) →
      setAverageFee (e :: rest) = some (((e :: rest).map (fun c => c.pool.fee)).sum)) ∧
    (e.status = PoolMode.PARALLEL →
      setAverageFee (e :: rest) =
        some (getAverageFeeForRoutes e.allRoutes e.allNodeRoutes e.totalInputAmount)) := by
  constructor
  · intro h
    simp [setAverageFee, h]
  · intro h
    have hne : ¬(e.status = PoolMode.SMART ∨ e.status = PoolMode.STABLE) := by
      simp [h]
    simp [setAverageFee, hne]

/-- Witness for C7: a single `STABLE` leg sums to its own pool fee, and a
single `PARALLEL` leg goes through `getAverageFeeForRoutes`. -/
theorem setAverageFee_branches_witness :
    setAverageFee [sampleStableLeg] = some (([sampleStableLeg].map (fun c => c.pool.fee)).sum) ∧
    setAverageFee [sampleParallelLeg] =
      some (getAverageFeeForRoutes sampleParallelLeg.allRoutes sampleParallelLeg.allNodeRoutes
        sampleParallelLeg.totalInputAmount) :=
  ⟨(setAverageFee_branches sampleStableLeg []).1 (Or.inr rfl),
   (setAverageFee_branches sampleParallelLeg []).2 rfl⟩

/-- C8: whenever both tokens are present and `tokenIn.id = tokenOut.id`, an
estimation cycle of either hook ends with `canSwap = false` and never
invokes the estimator, for every input amount and estimator behaviour. -/
theorem sameToken_no_swap (o : SwapOptions) (st : UseSwapState) (sst : StableSwapState)
    (res : Except String (Option (List EstimateSwapView))) (sres : Except String StableEstimateOut)
    (tin tout : Token) (hin : o.tokenIn = some tin) (hout : o.tokenOut = some tout)
    (heq : tin.id = tout.id) :
    (useSwapGetEstimate o st res).state.canSwap = false ∧
    (useSwapGetEstimate o st res).estimatorCalled = false ∧
    (useStableSwapGetEstimate o sst sres).state.canSwap = false ∧
    (useStableSwapGetEstimate o sst sres).estimatorCalled = false := by
  rcases o with ⟨tin0, tout0, amt, slip, lt, lp⟩
  simp at hin hout
  subst hin hout
  simp [useSwapGetEstimate, useStableSwapGetEstimate, heq]

/-- Witness for C8: same token on both sides, amount `'10'`. -/
theorem sameToken_no_swap_witness :
    (useSwapGetEstimate sampleOptsSame initialSwapState
      (Except.ok (some [sampleStableLeg]))).state.canSwap = false ∧
    (useSwapGetEstimate sampleOptsSame initialSwapState
      (Except.ok (some [sampleStableLeg]))).estimatorCalled = false ∧
    (useStableSwapGetEstimate sampleOptsSame initialStableState
      (Except.ok sampleStableOut)).state.canSwap = false ∧
    (useStableSwapGetEstimate sampleOptsSame initialStableState
      (Except.ok sampleStableOut)).estimatorCalled = false :=
  sameToken_no_swap sampleOptsSame initialSwapState initialStableState
    (Except.ok (some [sampleStableLeg])) (Except.ok sampleStableOut)
    tokenA tokenA rfl rfl rfl

/-- C6: whenever a cycle of either hook actually invokes its estimator, the
cycle ends with the `loadingTrigger` flag cleared whatever the estimator's
outcome — in `useSwap` through the `.finally`, in `useStableSwap` through
the (spec-modelled) clearing inside `estimateStableSwap`. -/
theorem loadingTrigger_cleared (o : SwapOptions) (st : UseSwapState) (sst : StableSwapState)
    (res : Except String (Option (List EstimateSwapView))) (sres : Except String StableEstimateOut) :
    ((useSwapGetEstimate o st res).estimatorCalled = true →
      (useSwapGetEstimate o st res).loadingTriggerAfter = false) ∧
    ((useStableSwapGetEstimate o sst sres).estimatorCalled = true →
      (useStableSwapGetEstimate o sst sres).loadingTriggerAfter = false) := by
  constructor
  · rcases o with ⟨tin, tout, amt, slip, lt, lp⟩
    cases tin <;> cases tout <;> simp [useSwapGetEstimate]
    rename_i a b
    by_cases hne : a.id ≠ b.id
    · by_cases hz : amt = "" ∨ isOnlyZeros amt
      · simp [hne, hz]
      · rcases res with e | val
        · simp [hne, hz]
        · rcases val with _ | l
          · simp [hne, hz]
          · rcases l with _ | ⟨hd, tl⟩ <;> simp [hne, hz]
    · simp at hne
      simp [hne]
  · rcases o with ⟨tin, tout, amt, slip, lt, lp⟩
    cases tin <;> cases tout <;> simp [useStableSwapGetEstimate]
    rename_i a b
    by_cases hne : a.id ≠ b.id
    · rcases sres with e | out
      · simp [hne]
      · by_cases hval : out.estimate = "" ∨ out.pool = none <;> simp [hne, hval]
    · simp at hne
      simp [hne]

/-- Witness for C6: a successful user-triggered `useSwap` cycle and a
successful stable cycle, both with the estimator invoked. -/
theorem loadingTrigger_cleared_witness :
    (useSwapGetEstimate sampleOpts initialSwapState
      (Except.ok (some [sampleStableLeg]))).loadingTriggerAfter = false ∧
    (useStableSwapGetEstimate sampleOpts initialStableState
      (Except.ok sampleStableOut)).loadingTriggerAfter = false :=
  ⟨(loadingTrigger_cleared sampleOpts initialSwapState initialStableState
      (Except.ok (some [sampleStableLeg])) (Except.ok sampleStableOut)).1 (by decide),
   (loadingTrigger_cleared sampleOpts initialSwapState initialStableState
      (Except.ok (some [sampleStableLeg])) (Except.ok sampleStableOut)).2 (by decide)⟩


/-- C2 counterexample: in `useStableSwap`, a cycle with distinct tokens and
the all-zero amount `'0'` does invoke `estimateStableSwap` and does not set
`tokenOutAmount` to `'0'` (it stays at its initial `''`). -/
theorem stable_zeroAmount_counterexample :
    (useStableSwapGetEstimate sampleOptsZero initialStableState
      (Except.ok sampleStableOut)).estimatorCalled = true ∧
    (useStableSwapGetEstimate sampleOptsZero initialStableState
      (Except.ok sampleStableOut)).state.tokenOutAmount ≠ "0" := by
  constructor <;> decide

/-- C2 (amended): in `useSwap`, a cycle with distinct tokens and an empty or
all-zero amount sets `tokenOutAmount = '0'` and returns without invoking
`estimateSwap`; in `useStableSwap`, a cycle with distinct tokens always
invokes `estimateStableSwap`, whatever the amount. -/
theorem zeroAmount_shortCircuit (o : SwapOptions) (st : UseSwapState) (sst : StableSwapState)
    (res : Except String (Option (List EstimateSwapView))) (sres : Except String StableEstimateOut)
    (tin tout : Token) (hin : o.tokenIn = some tin) (hout : o.tokenOut = some tout)
    (hne : tin.id ≠ tout.id) :
    ((o.tokenInAmount = "" ∨ isOnlyZeros o.tokenInAmount = true) →
      (useSwapGetEstimate o st res).state.tokenOutAmount = "0" ∧
      (useSwapGetEstimate o st res).estimatorCalled = false) ∧
    (useStableSwapGetEstimate o sst sres).estimatorCalled = true := by
  rcases o with ⟨tin0, tout0, amt, slip, lt, lp⟩
  simp at hin hout
  subst hin hout
  constructor
  · intro hz
    simp [useSwapGetEstimate, hne, hz]
  · rcases sres with e | out
    · simp [useStableSwapGetEstimate, hne]
    · by_cases hval : out.estimate = "" ∨ out.pool = none <;>
        simp [useStableSwapGetEstimate, hne, hval]

/-- Witness for C2 (amended): `useSwap` on the all-zero amount `'0'`
short-circuits; `useStableSwap` on the same inputs invokes its estimator. -/
theorem zeroAmount_shortCircuit_witness :
    ((sampleOptsZero.tokenInAmount = "" ∨ isOnlyZeros sampleOptsZero.tokenInAmount = true) →
      (useSwapGetEstimate sampleOptsZero initialSwapState
        (Except.ok (some [sampleStableLeg]))).state.tokenOutAmount = "0" ∧
      (useSwapGetEstimate sampleOptsZero initialSwapState
        (Except.ok (some [sampleStableLeg]))).estimatorCalled = false) ∧
    (useStableSwapGetEstimate sampleOptsZero initialStableState
      (Except.ok sampleStableOut)).estimatorCalled = true :=
  zeroAmount_shortCircuit sampleOptsZero initialSwapState initialStableState
    (Except.ok (some [sampleStableLeg])) (Except.ok sampleStableOut)
    tokenA tokenB rfl rfl (by decide)

/-- C3 counterexample: a timer-triggered (`loadingTrigger` true) successful
cycle does not update only pool and fee bookkeeping — it also flips
`canSwap` from `false` to `true` (the source's `setCanSwap(true)` runs
outside the `if (!loadingTrigger)` guard). -/
theorem backgroundRefresh_canSwap_counterexample :
    initialSwapState.canSwap = false ∧
    sampleOptsTrigger.loadingTrigger = true ∧
    (useSwapGetEstimate sampleOptsTrigger initialSwapState
      (Except.ok (some [sampleParallelLeg]))).state.canSwap = true := by
  refine ⟨rfl, rfl, ?_⟩
  decide

/-- C3 (amended): a successful estimation cycle with a non-zero amount
leaves the user-visible output amount and route legs (`swapsToDo`, and in
the stable hook `noFeeAmount`) unchanged when the refresh was
timer-triggered (`loadingTrigger` true), updating the `pool` and fee
bookkeeping and, beyond what the claim lists, also refreshing `canSwap` to
`true` and `swapError` to `null` as in any successful cycle; when
user-triggered (`loadingTrigger` false), it pushes the new estimate to the
visible output and route legs. -/
theorem backgroundRefresh_frame (o : SwapOptions) (st : UseSwapState) (sst : StableSwapState)
    (e : EstimateSwapView) (rest : List EstimateSwapView) (out : StableEstimateOut)
    (tin tout : Token) (hin : o.tokenIn = some tin) (hout : o.tokenOut = some tout)
    (hne : tin.id ≠ tout.id)
    (hamt : ¬(o.tokenInAmount = "" ∨ isOnlyZeros o.tokenInAmount = true))
    (hval : ¬(out.estimate = "" ∨ out.pool = none)) :
    (o.loadingTrigger = true →
      (useSwapGetEstimate o st (Except.ok (some (e :: rest)))).state.tokenOutAmount =
        st.tokenOutAmount ∧
      (useSwapGetEstimate o st (Except.ok (some (e :: rest)))).state.swapsToDo = st.swapsToDo ∧
      (useSwapGetEstimate o st (Except.ok (some (e :: rest)))).state.pool = some e.pool ∧
      (useSwapGetEstimate o st (Except.ok (some (e :: rest)))).state.avgFee =
        (setAverageFee (e :: rest)).getD st.avgFee ∧
      (useSwapGetEstimate o st (Except.ok (some (e :: rest)))).state.canSwap = true ∧
      (useSwapGetEstimate o st (Except.ok (some (e :: rest)))).state.swapError = none ∧
      (useStableSwapGetEstimate o sst (Except.ok out)).state.tokenOutAmount =
        sst.tokenOutAmount ∧
      (useStableSwapGetEstimate o sst (Except.ok out)).state.noFeeAmount = sst.noFeeAmount ∧
      (useStableSwapGetEstimate o sst (Except.ok out)).state.pool = out.pool) ∧
    (o.loadingTrigger = false →
      (useSwapGetEstimate o st (Except.ok (some (e :: rest)))).state.tokenOutAmount =
        expectedOutputString (e :: rest) tout.id ∧
      (useSwapGetEstimate o st (Except.ok (some (e :: rest)))).state.swapsToDo =
        some (e :: rest) ∧
      (useStableSwapGetEstimate o sst (Except.ok out)).state.tokenOutAmount = out.estimate ∧
      (useStableSwapGetEstimate o sst (Except.ok out)).state.noFeeAmount = out.dy) := by
  rcases o with ⟨tin0, tout0, amt, slip, lt, lp⟩
  simp at hin hout
  subst hin hout
  simp only [not_or, Bool.not_eq_true] at hamt
  obtain ⟨hamt1, hamt2⟩ := hamt
  constructor
  · intro hlt
    subst hlt
    simp [useSwapGetEstimate, useStableSwapGetEstimate, hne, hamt1, hamt2, hval]
  · intro hlt
    subst hlt
    simp [useSwapGetEstimate, useStableSwapGetEstimate, hne, hamt1, hamt2, hval]

/-- Witness for C3 on a timer-triggered cycle with amount `'10'`. -/
theorem backgroundRefresh_frame_witness :
    (sampleOptsTrigger.loadingTrigger = true →
      (useSwapGetEstimate sampleOptsTrigger initialSwapState
        (Except.ok (some [sampleParallelLeg]))).state.tokenOutAmount =
          initialSwapState.tokenOutAmount ∧
      (useSwapGetEstimate sampleOptsTrigger initialSwapState
        (Except.ok (some [sampleParallelLeg]))).state.swapsToDo = initialSwapState.swapsToDo ∧
      (useSwapGetEstimate sampleOptsTrigger initialSwapState
        (Except.ok (some [sampleParallelLeg]))).state.pool = some sampleParallelLeg.pool ∧
      (useSwapGetEstimate sampleOptsTrigger initialSwapState
        (Except.ok (some [sampleParallelLeg]))).state.avgFee =
          (setAverageFee [sampleParallelLeg]).getD initialSwapState.avgFee ∧
      (useSwapGetEstimate sampleOptsTrigger initialSwapState
        (Except.ok (some [sampleParallelLeg]))).state.canSwap = true ∧
      (useSwapGetEstimate sampleOptsTrigger initialSwapState
        (Except.ok (some [sampleParallelLeg]))).state.swapError = none ∧
      (useStableSwapGetEstimate sampleOptsTrigger initialStableState
        (Except.ok sampleStableOut)).state.tokenOutAmount = initialStableState.tokenOutAmount ∧
      (useStableSwapGetEstimate sampleOptsTrigger initialStableState
        (Except.ok sampleStableOut)).state.noFeeAmount = initialStableState.noFeeAmount ∧
      (useStableSwapGetEstimate sampleOptsTrigger initialStableState
        (Except.ok sampleStableOut)).state.pool = sampleStableOut.pool) ∧
    (sampleOptsTrigger.loadingTrigger = false →
      (useSwapGetEstimate sampleOptsTrigger initialSwapState
        (Except.ok (some [sampleParallelLeg]))).state.tokenOutAmount =
          expectedOutputString [sampleParallelLeg] tokenB.id ∧
      (useSwapGetEstimate sampleOptsTrigger initialSwapState
        (Except.ok (some [sampleParallelLeg]))).state.swapsToDo = some [sampleParallelLeg] ∧
      (useStableSwapGetEstimate sampleOptsTrigger initialStableState
        (Except.ok sampleStableOut)).state.tokenOutAmount = sampleStableOut.estimate ∧
      (useStableSwapGetEstimate sampleOptsTrigger initialStableState
        (Except.ok sampleStableOut)).state.noFeeAmount = sampleStableOut.dy) :=
  backgroundRefresh_frame sampleOptsTrigger initialSwapState initialStableState
    sampleParallelLeg [] sampleStableOut tokenA tokenB rfl rfl
    (by decide) (by decide) (by decide)

/-- C4: every failing estimation cycle — the estimator's promise rejects,
or resolves with no estimates (a falsy `estimates` value or an empty array
in `useSwap`; a falsy `estimate`/`pool` in `useStableSwap`, whose
`throw ''` reaches the same `.catch`) — ends with `canSwap = false`, the
visible output cleared to `''` and the error recorded in `swapError`.  In
`useSwap` a failing cycle presupposes a non-zero amount (a zero amount
short-circuits before the estimator and cannot fail); in `useStableSwap`
the estimator runs for every amount and the conclusions hold
unconditionally.  Each cycle is a total function of its inputs, so the
failure never escapes to the caller. -/
theorem estimationFailure_clears (o : SwapOptions) (st : UseSwapState) (sst : StableSwapState)
    (err : String) (out : StableEstimateOut) (tin tout : Token) (hin : o.tokenIn = some tin)
    (hout : o.tokenOut = some tout) (hne : tin.id ≠ tout.id)
    (hfal : out.estimate = "" ∨ out.pool = none) :
    (¬(o.tokenInAmount = "" ∨ isOnlyZeros o.tokenInAmount = true) →
      (useSwapGetEstimate o st (Except.error err)).state.canSwap = false ∧
      (useSwapGetEstimate o st (Except.error err)).state.tokenOutAmount = "" ∧
      (useSwapGetEstimate o st (Except.error err)).state.swapError = some err ∧
      (useSwapGetEstimate o st (Except.ok none)).state.canSwap = false ∧
      (useSwapGetEstimate o st (Except.ok none)).state.tokenOutAmount = "" ∧
      (useSwapGetEstimate o st (Except.ok none)).state.swapError = some "" ∧
      (useSwapGetEstimate o st (Except.ok (some []))).state.canSwap = false ∧
      (useSwapGetEstimate o st (Except.ok (some []))).state.tokenOutAmount = "" ∧
      (useSwapGetEstimate o st (Except.ok (some []))).state.swapError = some "TypeError") ∧
    (useStableSwapGetEstimate o sst (Except.error err)).state.canSwap = false ∧
    (useStableSwapGetEstimate o sst (Except.error err)).state.tokenOutAmount = "" ∧
    (useStableSwapGetEstimate o sst (Except.error err)).state.swapError = some err ∧
    (useStableSwapGetEstimate o sst (Except.ok out)).state.canSwap = false ∧
    (useStableSwapGetEstimate o sst (Except.ok out)).state.tokenOutAmount = "" ∧
    (useStableSwapGetEstimate o sst (Except.ok out)).state.swapError = some "" := by
  rcases o with ⟨tin0, tout0, amt, slip, lt, lp⟩
  simp at hin hout
  subst hin hout
  constructor
  · intro hamt
    simp [useSwapGetEstimate, hne, hamt]
  · simp [useStableSwapGetEstimate, hne, hfal]

/-- Witness for C4 at a concrete rejected estimation (`'no pool'`), a falsy
resolution, an empty-array resolution, and a no-estimate stable
resolution, all at amount `'10'`. -/
theorem estimationFailure_clears_witness :
    (¬(sampleOpts.tokenInAmount = "" ∨ isOnlyZeros sampleOpts.tokenInAmount = true) →
      (useSwapGetEstimate sampleOpts initialSwapState
        (Except.error "no pool")).state.canSwap = false ∧
      (useSwapGetEstimate sampleOpts initialSwapState
        (Except.error "no pool")).state.tokenOutAmount = "" ∧
      (useSwapGetEstimate sampleOpts initialSwapState
        (Except.error "no pool")).state.swapError = some "no pool" ∧
      (useSwapGetEstimate sampleOpts initialSwapState
        (Except.ok none)).state.canSwap = false ∧
      (useSwapGetEstimate sampleOpts initialSwapState
        (Except.ok none)).state.tokenOutAmount = "" ∧
      (useSwapGetEstimate sampleOpts initialSwapState
        (Except.ok none)).state.swapError = some "" ∧
      (useSwapGetEstimate sampleOpts initialSwapState
        (Except.ok (some []))).state.canSwap = false ∧
      (useSwapGetEstimate sampleOpts initialSwapState
        (Except.ok (some []))).state.tokenOutAmount = "" ∧
      (useSwapGetEstimate sampleOpts initialSwapState
        (Except.ok (some []))).state.swapError = some "TypeError") ∧
    (useStableSwapGetEstimate sampleOpts initialStableState
      (Except.error "no pool")).state.canSwap = false ∧
    (useStableSwapGetEstimate sampleOpts initialStableState
      (Except.error "no pool")).state.tokenOutAmount = "" ∧
    (useStableSwapGetEstimate sampleOpts initialStableState
      (Except.error "no pool")).state.swapError = some "no pool" ∧
    (useStableSwapGetEstimate sampleOpts initialStableState
      (Except.ok sampleStableOutFalsy)).state.canSwap = false ∧
    (useStableSwapGetEstimate sampleOpts initialStableState
      (Except.ok sampleStableOutFalsy)).state.tokenOutAmount = "" ∧
    (useStableSwapGetEstimate sampleOpts initialStableState
      (Except.ok sampleStableOutFalsy)).state.swapError = some "" :=
  estimationFailure_clears sampleOpts initialSwapState initialStableState "no pool"
    sampleStableOutFalsy tokenA tokenB rfl rfl (by decide) (Or.inl rfl)

/-- C9: the exposed `minAmountOut` is `null` exactly when `tokenOutAmount`
is the empty string; after a zero-amount `useSwap` quote (which stores the
string `'0'`), it is not `null` but `percentLess(slippageTolerance, '0')`,
i.e. zero reduced by the tolerance. -/
theorem minAmountOut_null_iff_empty (s : String) (p : ℚ) (o : SwapOptions) (st : UseSwapState)
    (res : Except String (Option (List EstimateSwapView))) (tin tout : Token)
    (hin : o.tokenIn = some tin) (hout : o.tokenOut = some tout) (hne : tin.id ≠ tout.id)
    (hz : isOnlyZeros o.tokenInAmount = true) :
    (minAmountOut s p = none ↔ s = "") ∧
    minAmountOut "0" p = some (percentLess p 0) ∧
    (useSwapGetEstimate o st res).state.tokenOutAmount = "0" ∧
    minAmountOut ((useSwapGetEstimate o st res).state.tokenOutAmount) p =
      some (percentLess p 0) := by
  have hzero : (useSwapGetEstimate o st res).state.tokenOutAmount = "0" := by
    rcases o with ⟨tin0, tout0, amt, slip, lt, lp⟩
    simp at hin hout
    subst hin hout
    simp only [] at hz
    simp [useSwapGetEstimate, hne, hz]
  refine ⟨?_, ?_, hzero, ?_⟩
  · unfold minAmountOut
    split_ifs with h <;> simp [h]
  · simp [minAmountOut, strToRat_zero]
  · rw [hzero]
    simp [minAmountOut, strToRat_zero]

/-- Witness for C9 at `tokenOutAmount = '0'`, slippage 1 %, on the
zero-amount cycle inputs. -/
theorem minAmountOut_null_iff_empty_witness :
    (minAmountOut "0" 1 = none ↔ ("0" : String) = "") ∧
    minAmountOut "0" 1 = some (percentLess 1 0) ∧
    (useSwapGetEstimate sampleOptsZero initialSwapState
      (Except.ok (some [sampleStableLeg]))).state.tokenOutAmount = "0" ∧
    minAmountOut ((useSwapGetEstimate sampleOptsZero initialSwapState
      (Except.ok (some [sampleStableLeg]))).state.tokenOutAmount) 1 =
      some (percentLess 1 0) :=
  minAmountOut_null_iff_empty "0" 1 sampleOptsZero initialSwapState
    (Except.ok (some [sampleStableLeg])) tokenA tokenB rfl rfl (by decide) (by decide)


/-- C5 counterexample: a transaction whose first action is some other
function call and whose second action is `swap` carries a method name of
the set among its first two action entries (so the claim classifies it as a
swap), yet the code classifies it as not-a-swap: the second entry is only
ever compared against `ft_transfer_call`. -/
theorem txClassifier_counterexample :
    claimClassifiedAsSwap
      { actions := [{ methodName := some "add_liquidity" },
                    { methodName := some "swap" }] } ∧
    isSwapTransaction
      { actions := [{ methodName := some "add_liquidity" },
                    { methodName := some "swap" }] } = false := by
  constructor
  · exact ⟨"swap", by decide, Or.inr (by decide)⟩
  · decide

/-- C5 (amended): the resolver classifies a fetched transaction as a swap
exactly when the first action's method name is `ft_transfer_call`, `swap`
or `near_withdraw`, or the second action's method name is
`ft_transfer_call`; it emits the success notification exactly when the
classification succeeds and no error code is present; it always rewrites
navigation to the originating path; and once the hash is stripped the
effect never re-fires. -/
theorem txHashEffect_spec (t : Transaction) (info : UrlInfo) (fetched : String → Transaction)
    (h : String) (hh : info.txHash = some h) :
    (isSwapTransaction t = true ↔
      (actionMethod t 0 = some "ft_transfer_call" ∨ actionMethod t 0 = some "swap" ∨
       actionMethod t 0 = some "near_withdraw" ∨ actionMethod t 1 = some "ft_transfer_call")) ∧
    ((txHashEffect info fetched).toastEmitted = true ↔
      (isSwapTransaction (fetched h) = true ∧ info.errorType = none)) ∧
    (txHashEffect info fetched).historyReplacedTo = some info.pathname ∧
    (∀ info2 : UrlInfo, info2.txHash = none →
      txHashEffect info2 fetched = { toastEmitted := false, historyReplacedTo := none }) := by
  rcases info with ⟨tx, path, errTy⟩
  simp at hh
  subst hh
  refine ⟨?_, ?_, ?_, ?_⟩
  · simp [isSwapTransaction]
    tauto
  · simp [txHashEffect, Option.isNone_iff_eq_none]
  · simp [txHashEffect]
  · intro info2 h2
    rcases info2 with ⟨tx2, path2, errTy2⟩
    simp at h2
    subst h2
    simp [txHashEffect]

/-- Witness for C5 (amended) at a one-action `swap` transaction, no error
code, hash `'abc'`. -/
theorem txHashEffect_spec_witness :
    (isSwapTransaction { actions := [{ methodName := some "swap" }] } = true ↔
      (actionMethod { actions := [{ methodName := some "swap" }] } 0 = some "ft_transfer_call" ∨
       actionMethod { actions := [{ methodName := some "swap" }] } 0 = some "swap" ∨
       actionMethod { actions := [{ methodName := some "swap" }] } 0 = some "near_withdraw" ∨
       actionMethod { actions := [{ methodName := some "swap" }] } 1 = some "ft_transfer_call")) ∧
    ((txHashEffect { txHash := some "abc", pathname := "/", errorType := none }
        (fun _ => { actions := [{ methodName := some "swap" }] })).toastEmitted = true ↔
      (isSwapTransaction { actions := [{ methodName := some "swap" }] } = true ∧
        ({ txHash := some "abc", pathname := "/", errorType := none } : UrlInfo).errorType = none)) ∧
    (txHashEffect { txHash := some "abc", pathname := "/", errorType := none }
      (fun _ => { actions := [{ methodName := some "swap" }] })).historyReplacedTo = some "/" ∧
    (∀ info2 : UrlInfo, info2.txHash = none →
      txHashEffect info2 (fun _ => { actions := [{ methodName := some "swap" }] }) =
        { toastEmitted := false, historyReplacedTo := none }) :=
  txHashEffect_spec { actions := [{ methodName := some "swap" }] }
    { txHash := some "abc", pathname := "/", errorType := none }
    (fun _ => { actions := [{ methodName := some "swap" }] }) "abc" rfl

/-- C10: for every inspected transaction hash the navigation entry is
rewritten to the originating path unconditionally — also when the
transaction is not classified as a swap and when an error code is present —
while the notification is emitted only in the classified, error-free
case. -/
theorem historyReplace_unconditional (info : UrlInfo) (fetched : String → Transaction)
    (h : String) (hh : info.txHash = some h) :
    (txHashEffect info fetched).historyReplacedTo = some info.pathname ∧
    ((txHashEffect info fetched).toastEmitted = true ↔
      (isSwapTransaction (fetched h) = true ∧ info.errorType = none)) := by
  rcases info with ⟨tx, path, errTy⟩
  simp at hh
  subst hh
  constructor
  · simp [txHashEffect]
  · simp [txHashEffect, Option.isNone_iff_eq_none]

/-- Witness for C10 at a non-swap transaction with an error code present:
navigation is still rewritten, no toast. -/
theorem historyReplace_unconditional_witness :
    (txHashEffect { txHash := some "abc", pathname := "/swap", errorType := some "SlippageError" }
      (fun _ => { actions := [{ methodName := some "add_liquidity" }] })).historyReplacedTo =
        some "/swap" ∧
    ((txHashEffect { txHash := some "abc", pathname := "/swap", errorType := some "SlippageError" }
        (fun _ => { actions := [{ methodName := some "add_liquidity" }] })).toastEmitted = true ↔
      (isSwapTransaction { actions := [{ methodName := some "add_liquidity" }] } = true ∧
        ({ txHash := some "abc", pathname := "/swap",
           errorType := some "SlippageError" } : UrlInfo).errorType = none)) :=
  historyReplace_unconditional
    { txHash := some "abc", pathname := "/swap", errorType := some "SlippageError" }
    (fun _ => { actions := [{ methodName := some "add_liquidity" }] }) "abc" rfl

end RefUi
